import Mathlib

/-!
Verification of the forecast cache subsystem of fmiproxy.

The subject is the forecast cache module: the query operation `getForecasts`,
the refresh pipeline `refreshFrom` with its stages `getGribBounds`,
`createForecastLocations` and `getForecastsFromGrib`, and the helper
`roundTo1Decimal`.

Embedding conventions:
- JavaScript numbers are modelled as exact rationals (the module only adds,
  multiplies, divides and compares small decimal quantities).  A value that
  can also be NaN (an unparseable token under parseFloat) or undefined (an
  array access past the end of the parsed coordinate array) is modelled by
  `JSNum`, which keeps NaN and undefined apart: lodash coerces NaN to 0 with
  toFinite, but an undefined end argument of _.range triggers the
  one-argument convention (end becomes the coerced start, start becomes 0)
  before any coercion of the end.
- Timestamps are integers (epoch milliseconds); moment(a).isAfter(b) is the
  strict order on them.
- The module-global mutable variable cachedForecasts is passed and returned
  explicitly: an operation that can write it returns the post-call value of
  the variable next to its result.
- Asynchronous external calls (grib_get and the per-point grib parser) are
  modelled as an environment delivering either a value or an error
  (`Except DataSourceError`); a rejected promise chain is the error case.
-/

/-- Error produced when an external data-source call fails (rejected
promise of `grib_get` or of the per-point extraction). -/
structure DataSourceError where
  msg : String
  deriving DecidableEq, Repr

/-- One weather forecast item of a location: a timestamp plus an opaque
payload (the payload never influences control flow in this module). -/
structure ForecastItem where
  time : ℤ
  values : String
  deriving DecidableEq, Repr

/-- Cached forecast location: an object of the form
`\x7b lat, lng, items \x7d` held in cachedForecasts. -/
structure ForecastLocation where
  lat : ℚ
  lng : ℚ
  items : List ForecastItem
  deriving DecidableEq, Repr

/-- Corner of a query bounding box, with the field names the module reads
(`bounds.swCorner.lat` etc.). -/
structure LatLng where
  lat : ℚ
  lng : ℚ
  deriving DecidableEq, Repr

/-- Query bounding box handed to getForecasts. -/
structure BoundingBox where
  swCorner : LatLng
  neCorner : LatLng
  deriving DecidableEq, Repr

/-- Point argument of geolib isPointInside, an object of the form
`\x7b latitude, longitude \x7d`. -/
structure GeoPoint where
  latitude : ℚ
  longitude : ℚ
  deriving DecidableEq, Repr

/-- One iteration of the geolib (1.x) isPointInside loop, for the point p and
the edge between corner ci (= coords[i]) and the trailing corner cj
(= coords[j]).  The JS condition is

  ((ci.longitude <= p.longitude && p.longitude < cj.longitude) ||
   (cj.longitude <= p.longitude && p.longitude < ci.longitude)) &&
  p.latitude < (cj.latitude - ci.latitude) * (p.longitude - ci.longitude) /
               (cj.longitude - ci.longitude) + ci.latitude

In JS the division is only evaluated when the first conjunct holds, which
forces ci.longitude ≠ cj.longitude; rational division is total, and when the
first conjunct is false the Boolean conjunction is false on both sides, so
the Bool below agrees with the JS expression on every input. -/
def pnpolyEdge (p ci cj : GeoPoint) : Bool :=
  ((decide (ci.longitude ≤ p.longitude) && decide (p.longitude < cj.longitude)) ||
   (decide (cj.longitude ≤ p.longitude) && decide (p.longitude < ci.longitude))) &&
  decide (p.latitude <
    (cj.latitude - ci.latitude) * (p.longitude - ci.longitude) /
      (cj.longitude - ci.longitude) + ci.latitude)

/-- geolib isPointInside (ray casting): walk the corners pairing coords[i]
with coords[j], where j starts at the last index and afterwards trails i by
one; toggle the accumulator on every crossing edge; start from false.  The
default corner fed to getLastD is never used: when the polygon is empty the
zip is empty. -/
def isPointInside (p : GeoPoint) (polygon : List GeoPoint) : Bool :=
  (polygon.zip (polygon.getLastD (GeoPoint.mk 0 0) :: polygon.dropLast)).foldl
    (fun c e => if pnpolyEdge p e.1 e.2 then !c else c) false

/-- Corner array built by getForecasts from the query box, in source order:
sw, (ne.lat, sw.lng), ne, (sw.lat, ne.lng). -/
def queryCorners (bounds : BoundingBox) : List GeoPoint :=
  [GeoPoint.mk bounds.swCorner.lat bounds.swCorner.lng,
   GeoPoint.mk bounds.neCorner.lat bounds.swCorner.lng,
   GeoPoint.mk bounds.neCorner.lat bounds.neCorner.lng,
   GeoPoint.mk bounds.swCorner.lat bounds.neCorner.lng]

/-- Effective start time of a query: `moment(startTime || 0)` — an absent
(or zero) argument becomes the epoch timestamp 0. -/
def jsStartTime : Option ℤ → ℤ
  | none => 0
  | some t => t

/-- Spatial test applied to one cached forecast:
`geolib.isPointInside(\x7b latitude: forecast.lat, longitude: forecast.lng \x7d, corners)`. -/
def inQueryBounds (bounds : BoundingBox) (forecast : ForecastLocation) : Bool :=
  isPointInside (GeoPoint.mk forecast.lat forecast.lng) (queryCorners bounds)

/-- Time filtering step applied to one selected forecast:
`forecast.items = _.filter(forecast.items, (item) => moment(item.time).isAfter(startTime))`.
The assignment writes through to the cached object; the function value is the
updated record. -/
def filterItems (t : ℤ) (forecast : ForecastLocation) : ForecastLocation :=
  ForecastLocation.mk forecast.lat forecast.lng
    (forecast.items.filter (fun item => decide (t < item.time)))

/-- getForecasts(bounds, startTime) against the module state cachedForecasts.
The source filters cachedForecasts by the corner polygon, then maps the
selected objects through the item-time filter, reassigning items on the
selected objects themselves and returning them.  The first component is the
returned list; the second is cachedForecasts as left behind by the call
(every selected object now carries the filtered items, unselected objects
are untouched) — the map models the in-place writes through the aliases the
filter result holds into the cache. -/
def getForecasts (bounds : BoundingBox) (startTime : Option ℤ)
    (cachedForecasts : List ForecastLocation) :
    List ForecastLocation × List ForecastLocation :=
  ((cachedForecasts.filter (inQueryBounds bounds)).map
      (filterItems (jsStartTime startTime)),
   cachedForecasts.map (fun forecast =>
      if inQueryBounds bounds forecast then filterItems (jsStartTime startTime) forecast
      else forecast))

/-- JavaScript numeric value as it flows out of parseFloat or out of an
array access past the end: `undef` models undefined (a missing array
element), `nan` models NaN (an unparseable token), `num q` an ordinary
(finite) number.  The two non-numbers must stay apart because _.range
treats an undefined end specially while it merely toFinite-coerces NaN. -/
inductive JSNum where
  | undef : JSNum
  | nan : JSNum
  | num (q : ℚ) : JSNum
  deriving DecidableEq, Repr

/-- lodash toFinite: NaN (and undefined, where toFinite is ever applied to
it) is falsy and maps to 0; a finite number is returned unchanged.
(Binary-double infinities never arise in this module.) -/
def toFiniteQ (x : JSNum) : ℚ :=
  match x with
  | JSNum.num q => q
  | _ => 0

/-- baseRange of lodash, after createRange has coerced its arguments: the
length is nativeMax(nativeCeil((end - start) / (step || 1)), 0) and the
elements are start, start + step, start + 2·step, …  (baseRange accumulates
by repeated addition; with exact rationals that is start + k·step).
`Int.toNat` clamps a negative ceiling to 0 exactly like the nativeMax.  The
arithmetic is exact rational arithmetic — the idealisation of the
binary-double arithmetic the engine performs. -/
def lodashBaseRange (s e step : ℚ) : List ℚ :=
  (List.range (⌈(e - s) / (if step = 0 then 1 else step)⌉).toNat).map
    (fun k : ℕ => s + k * step)

/-- lodash _.range(start, end, step) as createRange performs it: the start
is toFinite-coerced first; if end is undefined the one-argument convention
fires — end becomes the coerced start and start becomes 0 — before any
coercion of end; otherwise end is toFinite-coerced (NaN becomes 0).  The
module always passes a numeric step, so the undefined-step branch of
createRange never fires and the step is used as given. -/
def lodashRange (start finish : JSNum) (step : ℚ) : List ℚ :=
  match finish with
  | JSNum.undef => lodashBaseRange 0 (toFiniteQ start) step
  | _ => lodashBaseRange (toFiniteQ start) (toFiniteQ finish) step

/-- roundTo1Decimal(num) = Math.round(num * 10) / 10.  JS Math.round rounds
half toward positive infinity: Math.round(x) = ⌊x + 1/2⌋ (value-wise; the
-0 special case is the value 0). -/
def roundTo1Decimal (num : ℚ) : ℚ := ((⌊num * 10 + 1 / 2⌋ : ℤ) : ℚ) / 10

/-- Corner of the bounding box produced by getGribBounds: the parsed fields
may be NaN (unparseable token) or undefined (missing token). -/
structure JSCoord where
  lat : JSNum
  lng : JSNum
  deriving DecidableEq, Repr

/-- Bounding box produced by getGribBounds and consumed by
createForecastLocations. -/
structure JSBounds where
  swCorner : JSCoord
  neCorner : JSCoord
  deriving DecidableEq, Repr

/-- Grid point pushed by createForecastLocations: an object `\x7b lat, lng \x7d`. -/
structure GridPoint where
  lat : ℚ
  lng : ℚ
  deriving DecidableEq, Repr

/-- Bounding box whose four corner components are genuine numbers, as a
well-formed metadata line produces. -/
def numBounds (lat0 lng0 latN lngN : ℚ) : JSBounds :=
  JSBounds.mk (JSCoord.mk (JSNum.num lat0) (JSNum.num lng0))
    (JSCoord.mk (JSNum.num latN) (JSNum.num lngN))

/-- latitudes = _.map(_.range(bounds.swCorner.lat, bounds.neCorner.lat, latIncrement), roundTo1Decimal) -/
def latitudesOf (bounds : JSBounds) (latIncrement : ℚ) : List ℚ :=
  (lodashRange bounds.swCorner.lat bounds.neCorner.lat latIncrement).map roundTo1Decimal

/-- longitudes = _.map(_.range(bounds.swCorner.lng, bounds.neCorner.lng, lngIncrement), roundTo1Decimal) -/
def longitudesOf (bounds : JSBounds) (lngIncrement : ℚ) : List ℚ :=
  (lodashRange bounds.swCorner.lng bounds.neCorner.lng lngIncrement).map roundTo1Decimal

/-- createForecastLocations: the nested forEach push over latitudes (outer)
and longitudes (inner) is exactly a flatMap of maps. -/
def createForecastLocations (bounds : JSBounds) (latIncrement lngIncrement : ℚ) :
    List GridPoint :=
  (latitudesOf bounds latIncrement).flatMap (fun lat =>
    (longitudesOf bounds lngIncrement).map (fun lng => GridPoint.mk lat lng))

/-- Rounding to one decimal with ties going away from zero.  Modelled from
the spec: the spec says every generated coordinate is rounded to 1 decimal
place using standard round-half-away-from-zero; this definition follows
those words, to be compared with `roundTo1Decimal` above which embeds the
Math.round the source uses. -/
def specRoundTo1Decimal (num : ℚ) : ℚ :=
  ((if num * 10 < 0 then -⌊-(num * 10) + 1 / 2⌋ else ⌊num * 10 + 1 / 2⌋ : ℤ) : ℚ) / 10

/-- Grid generator as the spec words it.  Modelled from the spec: enumerate
the half-open latitude range [sw.lat, ne.lat) in latStep steps and the
half-open longitude range [sw.lng, ne.lng) in lngStep steps, round every
generated coordinate to one decimal using round-half-away-from-zero, and
return the cross product ordered latitude-major.  It differs from
`createForecastLocations` only in the rounding; it is the comparison
definition for the refinement check of that claim. -/
def specGenerateLocations (bounds : JSBounds) (latStep lngStep : ℚ) : List GridPoint :=
  ((lodashRange bounds.swCorner.lat bounds.neCorner.lat latStep).map specRoundTo1Decimal).flatMap
    (fun lat =>
      ((lodashRange bounds.swCorner.lng bounds.neCorner.lng lngStep).map specRoundTo1Decimal).map
        (fun lng => GridPoint.mk lat lng))

/-- Numeral skeleton recognised by parseFloat, kept in integer pieces so that
the character-level parse is kernel-computable; `numeralToQ` turns it into
the rational value afterwards. -/
structure ParsedNumeral where
  neg : Bool
  intPart : ℕ
  fracPart : ℕ
  fracLen : ℕ
  expNeg : Bool
  expDigits : ℕ
  deriving DecidableEq, Repr

/-- Decimal digit run to a natural number. -/
def digitsToNat (ds : List Char) : ℕ :=
  ds.foldl (fun a c => 10 * a + (c.toNat - 48)) 0

/-- Character-level part of JS parseFloat: skip leading whitespace, optional
sign, longest digit run, optional fraction after a dot, optional exponent
introduced by e or E (an exponent marker without digits is not consumed — the
value stops before it, as parseFloat does).  Returns none (NaN) when no
digit was found.  The Infinity literal is not modelled; the tokens this
module parses are plain decimal numerals. -/
def parseNumeral (token : List Char) : Option ParsedNumeral :=
  let cs := token.dropWhile Char.isWhitespace
  let sgn : Bool × List Char :=
    match cs with
    | '-' :: r => (true, r)
    | '+' :: r => (false, r)
    | _ => (false, cs)
  let intDs := sgn.2.takeWhile Char.isDigit
  let cs2 := sgn.2.dropWhile Char.isDigit
  let frac : List Char × List Char :=
    match cs2 with
    | '.' :: r => (r.takeWhile Char.isDigit, r.dropWhile Char.isDigit)
    | _ => ([], cs2)
  if intDs.isEmpty && frac.1.isEmpty then none
  else
    let ex : Bool × ℕ :=
      match frac.2 with
      | e :: r =>
        if e = 'e' ∨ e = 'E' then
          let esgn : Bool × List Char :=
            match r with
            | '-' :: r3 => (true, r3)
            | '+' :: r3 => (false, r3)
            | _ => (false, r)
          let expDs := esgn.2.takeWhile Char.isDigit
          if expDs.isEmpty then (false, 0) else (esgn.1, digitsToNat expDs)
        else (false, 0)
      | [] => (false, 0)
    some (ParsedNumeral.mk sgn.1 (digitsToNat intDs) (digitsToNat frac.1) frac.1.length ex.1 ex.2)

/-- Rational value of a parsed numeral. -/
def numeralToQ (n : ParsedNumeral) : ℚ :=
  (if n.neg then (-1 : ℚ) else 1) * ((n.intPart : ℚ) + (n.fracPart : ℚ) / 10 ^ n.fracLen) *
    (10 : ℚ) ^ (if n.expNeg then -(n.expDigits : ℤ) else (n.expDigits : ℤ))

/-- JS parseFloat on one token: NaN when no numeral is recognised. -/
def parseFloatJS (token : List Char) : JSNum :=
  match parseNumeral token with
  | none => JSNum.nan
  | some n => JSNum.num (numeralToQ n)

/-- output.split(String.fromCharCode(10))[0] — the characters before the
first newline. -/
def firstLineChars (cs : List Char) : List Char :=
  cs.takeWhile (fun c => c ≠ '\n')

/-- JS String.prototype.trim on a character list. -/
def trimChars (cs : List Char) : List Char :=
  ((cs.dropWhile Char.isWhitespace).reverse.dropWhile Char.isWhitespace).reverse

/-- JS split on a single space: consecutive separators produce empty tokens,
and the empty string yields one empty token, as line.trim().split(/ /) does. -/
def splitOnSpaceChars : List Char → List (List Char)
  | [] => [[]]
  | c :: rest =>
    match splitOnSpaceChars rest with
    | [] => [[]]
    | t :: ts => if c = ' ' then [] :: t :: ts else (c :: t) :: ts

/-- coords = _.map(line.trim().split(/ /), parseFloat) applied to the raw
grib_get output, after taking the first output line. -/
def gribCoords (output : String) : List JSNum :=
  (splitOnSpaceChars (trimChars (firstLineChars output.data))).map parseFloatJS

/-- getGribBounds result construction:
\x7b swCorner: \x7b lat: coords[0], lng: coords[1] \x7d, neCorner: \x7b lat: coords[2], lng: coords[3] \x7d \x7d.
Reading past the end of coords gives undefined, i.e. none. -/
def getGribBounds (output : String) : JSBounds :=
  JSBounds.mk
    (JSCoord.mk ((gribCoords output).getD 0 JSNum.undef) ((gribCoords output).getD 1 JSNum.undef))
    (JSCoord.mk ((gribCoords output).getD 2 JSNum.undef) ((gribCoords output).getD 3 JSNum.undef))

/-- LAT_GRID_INCREMENT of the module. -/
def LAT_GRID_INCREMENT : ℚ := 0.2

/-- LNG_GRID_INCREMENT of the module. -/
def LNG_GRID_INCREMENT : ℚ := 0.5

/-- getForecastsFromGrib(locations, gribFile): Promise.map over the
locations, each producing _.extend(location, \x7b items \x7d) from the
per-point extraction; the promise resolves with the results in input order
and rejects if any extraction rejects.  The grib file is folded into the
extraction oracle. -/
def getForecastsFromGrib (locations : List GridPoint)
    (getForecastItemsFromGrib : ℚ → ℚ → Except DataSourceError (List ForecastItem)) :
    Except DataSourceError (List ForecastLocation) :=
  locations.mapM (fun location =>
    (getForecastItemsFromGrib location.lat location.lng).map (fun forecastItems =>
      ForecastLocation.mk location.lat location.lng forecastItems))

/-- Environment of one refreshFrom run: what the external collaborators
deliver.  gribOutput is the settled grib_get metadata promise (error for a
rejection) and pointItems the settled per-point extraction promise for each
coordinate pair. -/
structure Env where
  gribOutput : Except DataSourceError String
  pointItems : ℚ → ℚ → Except DataSourceError (List ForecastItem)

/-- refreshFrom(gribFile) against the module state cachedForecasts: the
promise chain getGribBounds → createForecastLocations →
getForecastsFromGrib → (cachedForecasts = forecasts).  The first component
is the settled promise of the chain; the second is cachedForecasts after
the run — written exactly once, by the final assignment, and only when
every stage before it succeeded. -/
def refreshFrom (env : Env) (cachedForecasts : List ForecastLocation) :
    Except DataSourceError Unit × List ForecastLocation :=
  match env.gribOutput with
  | Except.error e => (Except.error e, cachedForecasts)
  | Except.ok output =>
    match getForecastsFromGrib
        (createForecastLocations (getGribBounds output) LAT_GRID_INCREMENT LNG_GRID_INCREMENT)
        env.pointItems with
    | Except.error e => (Except.error e, cachedForecasts)
    | Except.ok forecasts => (Except.ok (), forecasts)

/-- Bounded worker-pool state of one Promise.map run with a concurrency
limit: how many of the n tasks have been started and how many have finished.
Promise.map starts tasks in index order, so the started tasks are always a
range of indices and the counts determine the set of in-flight tasks. -/
structure PoolState where
  launched : ℕ
  finished : ℕ
  deriving DecidableEq, Repr

/-- Number of external calls in flight. -/
def PoolState.inFlight (s : PoolState) : ℕ := s.launched - s.finished

/-- Scheduler steps of Promise.map with concurrency limit c over n tasks:
a task may start only while fewer than c are in flight (the mapper queues
the item otherwise, releasing it when a completion frees a slot), and a
completion needs an in-flight task.  This is the queueing discipline of the
bluebird mapper that getForecastsFromGrib runs on. -/
inductive PoolStep (c n : ℕ) : PoolState → PoolState → Prop where
  | start (s : PoolState) (hn : s.launched < n) (hc : s.inFlight < c) :
      PoolStep c n s (PoolState.mk (s.launched + 1) s.finished)
  | complete (s : PoolState) (h : s.finished < s.launched) :
      PoolStep c n s (PoolState.mk s.launched (s.finished + 1))

/-- States reachable during one Promise.map run, starting from nothing
launched and nothing finished. -/
inductive PoolReachable (c n : ℕ) : PoolState → Prop where
  | init : PoolReachable c n (PoolState.mk 0 0)
  | step (s t : PoolState) : PoolReachable c n s → PoolStep c n s t → PoolReachable c n t

/-- Fan-in of Promise.map: an array of pending slots is filled as tasks
complete, each completion writing its value at its own index, in whatever
completion order the schedule produced. -/
def promiseMapFanIn {α β : Type} (f : α → β) (xs : List α) (completionOrder : List ℕ) :
    List (Option β) :=
  completionOrder.foldl
    (fun res i =>
      match xs[i]? with
      | some x => res.set i (some (f x))
      | none => res)
    (List.replicate xs.length none)

/-- Query box of the spec examples: sw = (60, 24), ne = (61, 25). -/
def box6024 : BoundingBox := BoundingBox.mk (LatLng.mk 60 24) (LatLng.mk 61 25)

/-- Parsed bounds of the three-token metadata line "1 2 3": the fourth
coordinate read past the end of the token array is undefined. -/
def gribBounds123 : JSBounds :=
  JSBounds.mk (JSCoord.mk (JSNum.num 1) (JSNum.num 2)) (JSCoord.mk (JSNum.num 3) JSNum.undef)

/-! Characterisation of the geolib containment test on the corner array. -/

theorem toggle_eq_xor (c t : Bool) : (if t then !c else c) = Bool.xor c t := by
  cases c <;> cases t <;> rfl

theorem pnpolyEdge_vertical (p : GeoPoint) (x y a : ℚ) :
    pnpolyEdge p (GeoPoint.mk x a) (GeoPoint.mk y a) = false := by
  simp only [pnpolyEdge]
  rcases le_or_lt a p.longitude with h1 | h1
  · have h2 : ¬ p.longitude < a := not_lt.mpr h1
    simp [h2]
  · have h2 : ¬ a ≤ p.longitude := not_le.mpr h1
    simp [h2]

theorem pnpolyEdge_horizontal (p : GeoPoint) (a x y : ℚ) :
    pnpolyEdge p (GeoPoint.mk a x) (GeoPoint.mk a y) =
      ((decide (x ≤ p.longitude) && decide (p.longitude < y) ||
        decide (y ≤ p.longitude) && decide (p.longitude < x)) &&
       decide (p.latitude < a)) := by
  simp only [pnpolyEdge, sub_self, zero_mul, zero_div, zero_add]

theorem isPointInside_four (p q0 q1 q2 q3 : GeoPoint) :
    isPointInside p [q0, q1, q2, q3] =
      Bool.xor (Bool.xor (Bool.xor (pnpolyEdge p q0 q3) (pnpolyEdge p q1 q0))
        (pnpolyEdge p q2 q1)) (pnpolyEdge p q3 q2) := by
  have h : isPointInside p [q0, q1, q2, q3] =
      [(q0, q3), (q1, q0), (q2, q1), (q3, q2)].foldl
        (fun c e => if pnpolyEdge p e.1 e.2 then !c else c) false := rfl
  rw [h]
  simp only [List.foldl_cons, List.foldl_nil, toggle_eq_xor, Bool.false_xor]

theorem isPointInside_queryCorners (b : BoundingBox) (p : GeoPoint) :
    isPointInside p (queryCorners b) =
      ((decide (b.swCorner.lng ≤ p.longitude) && decide (p.longitude < b.neCorner.lng) ||
        decide (b.neCorner.lng ≤ p.longitude) && decide (p.longitude < b.swCorner.lng)) &&
       Bool.xor (decide (p.latitude < b.swCorner.lat)) (decide (p.latitude < b.neCorner.lat))) := by
  obtain ⟨⟨sa, so⟩, na, no⟩ := b
  rw [show queryCorners (BoundingBox.mk (LatLng.mk sa so) (LatLng.mk na no)) =
      [GeoPoint.mk sa so, GeoPoint.mk na so, GeoPoint.mk na no, GeoPoint.mk sa no] from rfl]
  rw [isPointInside_four]
  rw [pnpolyEdge_horizontal p sa so no, pnpolyEdge_vertical p na sa so,
    pnpolyEdge_horizontal p na no so, pnpolyEdge_vertical p sa na no]
  cases hd1 : decide (so ≤ p.longitude) <;> cases hd2 : decide (p.longitude < no) <;>
    cases hd3 : decide (no ≤ p.longitude) <;> cases hd4 : decide (p.longitude < so) <;>
    cases hd5 : decide (p.latitude < sa) <;> cases hd6 : decide (p.latitude < na) <;> rfl

theorem lngCond_of_le (so no po : ℚ) (h : so ≤ no) :
    (decide (so ≤ po) && decide (po < no) || decide (no ≤ po) && decide (po < so)) =
      decide (so ≤ po ∧ po < no) := by
  rcases le_or_lt so po with h1 | h1 <;> rcases lt_or_le po no with h2 | h2
  · simp [h1, h2, not_lt.mpr h1]
  · simp [h1, not_lt.mpr h2, not_lt.mpr h1]
  · simp [not_le.mpr h1, h2, not_le.mpr h2]
  · exact absurd (lt_of_lt_of_le (lt_of_lt_of_le h1 h) h2) (lt_irrefl po)

theorem latXor_of_le (sa na pa : ℚ) (h : sa ≤ na) :
    Bool.xor (decide (pa < sa)) (decide (pa < na)) = decide (sa ≤ pa ∧ pa < na) := by
  rcases lt_or_le pa sa with h1 | h1 <;> rcases lt_or_le pa na with h2 | h2
  · simp [h1, h2, not_le.mpr h1]
  · exact absurd (lt_of_lt_of_le h1 h) (not_lt.mpr h2)
  · simp [not_lt.mpr h1, h2, h1]
  · simp [not_lt.mpr h1, not_lt.mpr h2, h1]

theorem latXor_of_gt (sa na pa : ℚ) (h : na < sa) :
    Bool.xor (decide (pa < sa)) (decide (pa < na)) = decide (na ≤ pa ∧ pa < sa) := by
  rcases lt_or_le pa na with h1 | h1 <;> rcases lt_or_le pa sa with h2 | h2
  · simp [h1, h2, not_le.mpr h1]
  · exact absurd ((h1.trans h).trans_le h2) (lt_irrefl pa)
  · simp [h2, not_lt.mpr h1, h1]
  · simp [not_lt.mpr h1, not_lt.mpr h2]

theorem isPointInside_wellFormed (b : BoundingBox) (p : GeoPoint)
    (hlat : b.swCorner.lat ≤ b.neCorner.lat) (hlng : b.swCorner.lng ≤ b.neCorner.lng) :
    isPointInside p (queryCorners b) =
      decide (b.swCorner.lat ≤ p.latitude ∧ p.latitude < b.neCorner.lat ∧
              b.swCorner.lng ≤ p.longitude ∧ p.longitude < b.neCorner.lng) := by
  rw [isPointInside_queryCorners, lngCond_of_le _ _ _ hlng, latXor_of_le _ _ _ hlat,
    ← Bool.decide_and]
  exact decide_eq_decide.mpr (by tauto)

theorem isPointInside_inverted (b : BoundingBox) (p : GeoPoint)
    (hlat : b.neCorner.lat < b.swCorner.lat) (hlng : b.swCorner.lng ≤ b.neCorner.lng) :
    isPointInside p (queryCorners b) =
      decide (b.neCorner.lat ≤ p.latitude ∧ p.latitude < b.swCorner.lat ∧
              b.swCorner.lng ≤ p.longitude ∧ p.longitude < b.neCorner.lng) := by
  rw [isPointInside_queryCorners, lngCond_of_le _ _ _ hlng, latXor_of_gt _ _ _ hlat,
    ← Bool.decide_and]
  exact decide_eq_decide.mpr (by tauto)

/-! Grid generator: half-open range characterisation and evaluation helpers. -/

theorem lodashRange_num (a bq step : ℚ) :
    lodashRange (JSNum.num a) (JSNum.num bq) step = lodashBaseRange a bq step := rfl

theorem lodashRange_undef (start : JSNum) (step : ℚ) :
    lodashRange start JSNum.undef step = lodashBaseRange 0 (toFiniteQ start) step := rfl

theorem lodashBaseRange_length_iff (s e step : ℚ) (h : 0 < step) (k : ℕ) :
    k < (lodashBaseRange s e step).length ↔ s + k * step < e := by
  have hne : ¬ (step = 0) := ne_of_gt h
  simp only [lodashBaseRange, List.length_map, List.length_range, if_neg hne]
  rw [Int.lt_toNat, Int.lt_ceil, lt_div_iff₀ h]
  push_cast
  constructor <;> intro hh <;> linarith

theorem flatMap_const_length {α β : Type} (l : List α) (f : α → List β) (m : ℕ)
    (h : ∀ a, (f a).length = m) : (l.flatMap f).length = l.length * m := by
  induction l with
  | nil => simp
  | cons x xs ih =>
    simp only [List.flatMap_cons, List.length_append, ih, h x, List.length_cons]
    ring

theorem createForecastLocations_eq_grid (lat0 lng0 latN lngN la lo : ℚ) :
    createForecastLocations (numBounds lat0 lng0 latN lngN) la lo =
      (List.range (latitudesOf (numBounds lat0 lng0 latN lngN) la).length).flatMap (fun i : ℕ =>
        (List.range (longitudesOf (numBounds lat0 lng0 latN lngN) lo).length).map (fun j : ℕ =>
          GridPoint.mk (roundTo1Decimal (lat0 + i * la))
                       (roundTo1Decimal (lng0 + j * lo)))) := by
  simp only [createForecastLocations, latitudesOf, longitudesOf, numBounds, lodashRange_num,
    lodashBaseRange, List.map_map, List.flatMap_map, List.length_map, List.length_range,
    Function.comp_def]

theorem lodashBaseRange_eval (a bq step : ℚ) (n : ℤ) (hstep : ¬ (step = 0))
    (hn : ⌈(bq - a) / step⌉ = n) :
    lodashBaseRange a bq step =
      (List.range n.toNat).map (fun k : ℕ => a + k * step) := by
  simp only [lodashBaseRange, if_neg hstep, hn]

theorem latitudes_example :
    latitudesOf (numBounds 0 24 1 25) (0.2 : ℚ) = [0, 0.2, 0.4, 0.6, 0.8] := by
  have h5 : ⌈((1 : ℚ) - 0) / (0.2 : ℚ)⌉ = 5 := by
    rw [Int.ceil_eq_iff] <;> norm_num
  show (lodashRange (JSNum.num (0 : ℚ)) (JSNum.num (1 : ℚ)) (0.2 : ℚ)).map roundTo1Decimal = _
  rw [lodashRange_num, lodashBaseRange_eval 0 1 0.2 5 (by norm_num) h5,
    show Int.toNat 5 = 5 from rfl]
  norm_num [roundTo1Decimal, List.range_succ, Function.comp_apply]

/-- C4 (amended): for every bounding box with numeric corners and positive
steps, createForecastLocations enumerates the half-open ranges
[sw.lat, ne.lat) and [sw.lng, ne.lng) (index k belongs exactly while
sw + k·step stays below the upper bound), returns the full cross product
ordered latitude-major with |lats| × |lngs| points, every coordinate rounded
to one decimal with Math.round (round half toward positive infinity — not
half away from zero, see the counterexample), and a latitude span 0 to 1
with step 0.2 yields \x7b0.0, 0.2, 0.4, 0.6, 0.8\x7d. -/
theorem createForecastLocations_grid_spec (lat0 lng0 latN lngN la lo : ℚ)
    (hla : 0 < la) (hlo : 0 < lo) :
    (∀ k : ℕ, k < (latitudesOf (numBounds lat0 lng0 latN lngN) la).length ↔
        lat0 + k * la < latN) ∧
    (∀ k : ℕ, k < (longitudesOf (numBounds lat0 lng0 latN lngN) lo).length ↔
        lng0 + k * lo < lngN) ∧
    (createForecastLocations (numBounds lat0 lng0 latN lngN) la lo).length =
      (latitudesOf (numBounds lat0 lng0 latN lngN) la).length *
        (longitudesOf (numBounds lat0 lng0 latN lngN) lo).length ∧
    createForecastLocations (numBounds lat0 lng0 latN lngN) la lo =
      (List.range (latitudesOf (numBounds lat0 lng0 latN lngN) la).length).flatMap (fun i : ℕ =>
        (List.range (longitudesOf (numBounds lat0 lng0 latN lngN) lo).length).map (fun j : ℕ =>
          GridPoint.mk (roundTo1Decimal (lat0 + i * la))
                       (roundTo1Decimal (lng0 + j * lo)))) ∧
    latitudesOf (numBounds 0 24 1 25) (0.2 : ℚ) = [0, 0.2, 0.4, 0.6, 0.8] := by
  refine ⟨?_, ?_, ?_, createForecastLocations_eq_grid lat0 lng0 latN lngN la lo,
    latitudes_example⟩
  · intro k
    show k < ((lodashRange (JSNum.num lat0) (JSNum.num latN) la).map roundTo1Decimal).length ↔ _
    rw [List.length_map, lodashRange_num]
    exact lodashBaseRange_length_iff _ _ _ hla k
  · intro k
    show k < ((lodashRange (JSNum.num lng0) (JSNum.num lngN) lo).map roundTo1Decimal).length ↔ _
    rw [List.length_map, lodashRange_num]
    exact lodashBaseRange_length_iff _ _ _ hlo k
  · simp only [createForecastLocations]
    exact flatMap_const_length _ _ _ (fun a => by simp)

/-- Witness for C4 at the box (0, 24) – (1, 25) with steps 0.2 and 0.5. -/
theorem createForecastLocations_grid_spec_witness :
    latitudesOf (numBounds 0 24 1 25) (0.2 : ℚ) = [0, 0.2, 0.4, 0.6, 0.8] :=
  (createForecastLocations_grid_spec 0 24 1 25
    (0.2 : ℚ) (0.5 : ℚ) (by norm_num) (by norm_num)).2.2.2.2

/-- C4 counterexample: the source rounds with Math.round, which sends the
coordinate -0.05 (times 10, giving -0.5) up to 0, while the claimed
round-half-away-from-zero sends it to -0.1; on the box
sw = (-0.05, 0), ne = (0.05, 0.5) the produced grid [ (0, 0) ] differs from
the grid [ (-0.1, 0) ] the claim describes. -/
theorem createForecastLocations_rounding_cex :
    createForecastLocations (numBounds (-0.05) 0 0.05 0.5) (0.2 : ℚ) (0.5 : ℚ) ≠
      specGenerateLocations (numBounds (-0.05) 0 0.05 0.5) (0.2 : ℚ) (0.5 : ℚ) := by
  have hc1 : ⌈((0.05 : ℚ) - (-0.05)) / (0.2 : ℚ)⌉ = 1 := by
    rw [Int.ceil_eq_iff] <;> norm_num
  have hc2 : ⌈((0.5 : ℚ) - 0) / (0.5 : ℚ)⌉ = 1 := by
    rw [Int.ceil_eq_iff] <;> norm_num
  have hlat : lodashRange (JSNum.num (-0.05 : ℚ)) (JSNum.num (0.05 : ℚ)) (0.2 : ℚ) =
      [-0.05] := by
    rw [lodashRange_num, lodashBaseRange_eval (-0.05) 0.05 0.2 1 (by norm_num) hc1]
    norm_num [List.range_succ]
  have hlng : lodashRange (JSNum.num (0 : ℚ)) (JSNum.num (0.5 : ℚ)) (0.5 : ℚ) = [0] := by
    rw [lodashRange_num, lodashBaseRange_eval 0 0.5 0.5 1 (by norm_num) hc2]
    norm_num [List.range_succ]
  have h1 : createForecastLocations (numBounds (-0.05) 0 0.05 0.5) (0.2 : ℚ) (0.5 : ℚ) =
      [GridPoint.mk 0 0] := by
    show ((lodashRange (JSNum.num (-0.05 : ℚ)) (JSNum.num (0.05 : ℚ)) (0.2 : ℚ)).map
        roundTo1Decimal).flatMap (fun lat =>
          ((lodashRange (JSNum.num (0 : ℚ)) (JSNum.num (0.5 : ℚ)) (0.5 : ℚ)).map
            roundTo1Decimal).map (fun lng => GridPoint.mk lat lng)) = _
    rw [hlat, hlng]
    norm_num [roundTo1Decimal]
  have h2 : specGenerateLocations (numBounds (-0.05) 0 0.05 0.5) (0.2 : ℚ) (0.5 : ℚ) =
      [GridPoint.mk (-0.1) 0] := by
    show ((lodashRange (JSNum.num (-0.05 : ℚ)) (JSNum.num (0.05 : ℚ)) (0.2 : ℚ)).map
        specRoundTo1Decimal).flatMap (fun lat =>
          ((lodashRange (JSNum.num (0 : ℚ)) (JSNum.num (0.5 : ℚ)) (0.5 : ℚ)).map
            specRoundTo1Decimal).map (fun lng => GridPoint.mk lat lng)) = _
    rw [hlat, hlng]
    norm_num [specRoundTo1Decimal]
  rw [h1, h2]
  simp only [ne_eq, List.cons.injEq, GridPoint.mk.injEq]
  norm_num

/-! Refresh pipeline: promise-chain case analysis and parse evaluation. -/

theorem refreshFrom_gribError (env : Env) (cache : List ForecastLocation) (e : DataSourceError)
    (h : env.gribOutput = Except.error e) : refreshFrom env cache = (Except.error e, cache) := by
  simp [refreshFrom, h]

theorem refreshFrom_extractError (env : Env) (cache : List ForecastLocation) (output : String)
    (e : DataSourceError) (hg : env.gribOutput = Except.ok output)
    (hf : getForecastsFromGrib
        (createForecastLocations (getGribBounds output) LAT_GRID_INCREMENT LNG_GRID_INCREMENT)
        env.pointItems = Except.error e) :
    refreshFrom env cache = (Except.error e, cache) := by
  simp [refreshFrom, hg, hf]

theorem refreshFrom_ok (env : Env) (cache : List ForecastLocation) (output : String)
    (fs : List ForecastLocation) (hg : env.gribOutput = Except.ok output)
    (hf : getForecastsFromGrib
        (createForecastLocations (getGribBounds output) LAT_GRID_INCREMENT LNG_GRID_INCREMENT)
        env.pointItems = Except.ok fs) :
    refreshFrom env cache = (Except.ok (), fs) := by
  simp [refreshFrom, hg, hf]

theorem getForecastsFromGrib_allOk (locations : List GridPoint)
    (f : ℚ → ℚ → List ForecastItem) :
    getForecastsFromGrib locations (fun la lo => Except.ok (f la lo)) =
      Except.ok (locations.map (fun loc =>
        ForecastLocation.mk loc.lat loc.lng (f loc.lat loc.lng))) := by
  induction locations with
  | nil => rfl
  | cons head tail ih =>
    simp only [getForecastsFromGrib] at ih ⊢
    rw [List.mapM_cons, ih]
    rfl

/-- C2: refreshFrom is all-or-nothing.  Whenever the settled chain is an
error — the metadata call failed or some per-point extraction failed —
cachedForecasts still holds exactly the pre-refresh snapshot; and whenever
the chain succeeds, cachedForecasts holds exactly the complete output of
the extraction stage over the generated grid, assigned once at the end of
the chain — never a partial snapshot. -/
theorem refreshFrom_all_or_nothing (env : Env) (cache : List ForecastLocation) :
    (∀ e, (refreshFrom env cache).1 = Except.error e → (refreshFrom env cache).2 = cache) ∧
    ((refreshFrom env cache).1 = Except.ok () → ∃ output,
        env.gribOutput = Except.ok output ∧
        getForecastsFromGrib
            (createForecastLocations (getGribBounds output) LAT_GRID_INCREMENT LNG_GRID_INCREMENT)
            env.pointItems = Except.ok (refreshFrom env cache).2) := by
  cases hg : env.gribOutput with
  | error e2 =>
    rw [refreshFrom_gribError env cache e2 hg]
    exact ⟨fun e he => rfl, fun hok => absurd hok (by simp)⟩
  | ok output =>
    cases hf : getForecastsFromGrib
        (createForecastLocations (getGribBounds output) LAT_GRID_INCREMENT LNG_GRID_INCREMENT)
        env.pointItems with
    | error e2 =>
      rw [refreshFrom_extractError env cache output e2 hg hf]
      exact ⟨fun e he => rfl, fun hok => absurd hok (by simp)⟩
    | ok fs =>
      rw [refreshFrom_ok env cache output fs hg hf]
      exact ⟨fun e he => absurd he (by simp), fun hok => ⟨output, rfl, hf⟩⟩

/-- Witness for C2: a run whose metadata call fails leaves the one-point
cache exactly as it was. -/
theorem refreshFrom_all_or_nothing_witness :
    (refreshFrom (Env.mk (Except.error (DataSourceError.mk "boom")) (fun _ _ => Except.ok []))
      [ForecastLocation.mk 60 24 []]).2 = [ForecastLocation.mk 60 24 []] :=
  (refreshFrom_all_or_nothing
    (Env.mk (Except.error (DataSourceError.mk "boom")) (fun _ _ => Except.ok []))
    [ForecastLocation.mk 60 24 []]).1 (DataSourceError.mk "boom") rfl

theorem gribTokens_123 :
    splitOnSpaceChars (trimChars (firstLineChars ['1', ' ', '2', ' ', '3'])) =
      [['1'], ['2'], ['3']] := by
  decide

theorem parseNumeral_one : parseNumeral ['1'] = some (ParsedNumeral.mk false 1 0 0 false 0) := by
  decide

theorem parseNumeral_two : parseNumeral ['2'] = some (ParsedNumeral.mk false 2 0 0 false 0) := by
  decide

theorem parseNumeral_three : parseNumeral ['3'] = some (ParsedNumeral.mk false 3 0 0 false 0) := by
  decide

theorem parseFloatJS_one : parseFloatJS ['1'] = JSNum.num 1 := by
  simp only [parseFloatJS, parseNumeral_one]
  norm_num [numeralToQ]

theorem parseFloatJS_two : parseFloatJS ['2'] = JSNum.num 2 := by
  simp only [parseFloatJS, parseNumeral_two]
  norm_num [numeralToQ]

theorem parseFloatJS_three : parseFloatJS ['3'] = JSNum.num 3 := by
  simp only [parseFloatJS, parseNumeral_three]
  norm_num [numeralToQ]

theorem getGribBounds_123 : getGribBounds "1 2 3" = gribBounds123 := by
  have hc : gribCoords "1 2 3" = [JSNum.num 1, JSNum.num 2, JSNum.num 3] := by
    simp only [gribCoords, gribTokens_123, List.map_cons, List.map_nil,
      parseFloatJS_one, parseFloatJS_two, parseFloatJS_three]
  simp only [getGribBounds, hc, gribBounds123]
  rfl

theorem longitudes_123 :
    longitudesOf gribBounds123 LNG_GRID_INCREMENT = [0, 0.5, 1, 1.5] := by
  have hc : ⌈((2 : ℚ) - 0) / (0.5 : ℚ)⌉ = 4 := by
    rw [Int.ceil_eq_iff] <;> norm_num
  show (lodashRange (JSNum.num (2 : ℚ)) JSNum.undef LNG_GRID_INCREMENT).map roundTo1Decimal = _
  rw [show LNG_GRID_INCREMENT = (0.5 : ℚ) from rfl, lodashRange_undef,
    show toFiniteQ (JSNum.num (2 : ℚ)) = 2 from rfl,
    lodashBaseRange_eval 0 2 0.5 4 (by norm_num) hc,
    show Int.toNat 4 = 4 from rfl]
  norm_num [roundTo1Decimal, List.range_succ, Function.comp_apply]

theorem latitudes_123_length :
    (latitudesOf gribBounds123 LAT_GRID_INCREMENT).length = 10 := by
  have hc : ⌈((3 : ℚ) - 1) / (0.2 : ℚ)⌉ = 10 := by
    rw [Int.ceil_eq_iff] <;> norm_num
  show ((lodashRange (JSNum.num (1 : ℚ)) (JSNum.num (3 : ℚ)) LAT_GRID_INCREMENT).map
    roundTo1Decimal).length = 10
  rw [show LAT_GRID_INCREMENT = (0.2 : ℚ) from rfl, lodashRange_num,
    lodashBaseRange_eval 1 3 0.2 10 (by norm_num) hc,
    show Int.toNat 10 = 10 from rfl]
  simp

theorem createForecastLocations_123_length :
    (createForecastLocations gribBounds123 LAT_GRID_INCREMENT LNG_GRID_INCREMENT).length =
      40 := by
  show ((latitudesOf gribBounds123 LAT_GRID_INCREMENT).flatMap (fun lat =>
    (longitudesOf gribBounds123 LNG_GRID_INCREMENT).map (fun lng => GridPoint.mk lat lng))).length = 40
  rw [flatMap_const_length _ _ (longitudesOf gribBounds123 LNG_GRID_INCREMENT).length
    (fun a => by simp), latitudes_123_length, longitudes_123]
  rfl

/-- C3 counterexample: with metadata output "1 2 3" — only three numeric
tokens — the refresh does not fail with DataSourceError: getGribBounds
silently builds a bounds object whose fourth coordinate is undefined,
_.range then falls into its one-argument convention for the longitudes
(enumerating [0, 2) in 0.5 steps), and the refresh succeeds, publishing a
40-point snapshot in place of the previously published one-point
snapshot. -/
theorem refreshFrom_short_metadata_cex :
    (refreshFrom (Env.mk (Except.ok "1 2 3") (fun _ _ => Except.ok []))
        [ForecastLocation.mk 60.5 24.5 []]).1 = Except.ok () ∧
    (refreshFrom (Env.mk (Except.ok "1 2 3") (fun _ _ => Except.ok []))
        [ForecastLocation.mk 60.5 24.5 []]).2.length = 40 ∧
    (refreshFrom (Env.mk (Except.ok "1 2 3") (fun _ _ => Except.ok []))
        [ForecastLocation.mk 60.5 24.5 []]).2 ≠ [ForecastLocation.mk 60.5 24.5 []] := by
  have hg : getForecastsFromGrib
      (createForecastLocations (getGribBounds "1 2 3") LAT_GRID_INCREMENT LNG_GRID_INCREMENT)
      (fun _ _ => Except.ok []) =
      Except.ok ((createForecastLocations (getGribBounds "1 2 3")
        LAT_GRID_INCREMENT LNG_GRID_INCREMENT).map (fun loc =>
          ForecastLocation.mk loc.lat loc.lng [])) :=
    getForecastsFromGrib_allOk _ (fun _ _ => [])
  have h : refreshFrom (Env.mk (Except.ok "1 2 3") (fun _ _ => Except.ok []))
      [ForecastLocation.mk 60.5 24.5 []] =
      (Except.ok (), (createForecastLocations (getGribBounds "1 2 3")
        LAT_GRID_INCREMENT LNG_GRID_INCREMENT).map (fun loc =>
          ForecastLocation.mk loc.lat loc.lng [])) :=
    refreshFrom_ok _ _ "1 2 3" _ rfl hg
  have hlen : ((createForecastLocations (getGribBounds "1 2 3")
      LAT_GRID_INCREMENT LNG_GRID_INCREMENT).map (fun loc =>
        ForecastLocation.mk loc.lat loc.lng ([] : List ForecastItem))).length = 40 := by
    rw [List.length_map, getGribBounds_123, createForecastLocations_123_length]
  refine ⟨by rw [h], by rw [h]; exact hlen, ?_⟩
  rw [h]
  intro heq
  have hl := congrArg List.length heq
  rw [hlen] at hl
  simp at hl

/-- C3 (amended): getGribBounds performs no validation and never fails by
itself — a missing token yields an undefined component and an unparseable
token a NaN component, both carried into the bounds — so a refresh whose
external calls succeed always succeeds no matter what the first output line
holds; for the three-token line "1 2 3" the undefined fourth coordinate
makes _.range enumerate the longitudes [0, 0.5, 1, 1.5] (its one-argument
convention) against ten latitudes, and the refresh publishes that 40-point
snapshot, replacing the previously published snapshot instead of leaving it
unchanged. -/
theorem refreshFrom_short_metadata_amended (f : ℚ → ℚ → List ForecastItem)
    (cache : List ForecastLocation) (output : String) :
    (refreshFrom (Env.mk (Except.ok output) (fun la lo => Except.ok (f la lo))) cache).1 =
      Except.ok () ∧
    (refreshFrom (Env.mk (Except.ok "1 2 3") (fun la lo => Except.ok (f la lo)))
      cache).2.length = 40 ∧
    longitudesOf (getGribBounds "1 2 3") LNG_GRID_INCREMENT = [0, 0.5, 1, 1.5] := by
  refine ⟨?_, ?_, ?_⟩
  · rw [refreshFrom_ok _ cache output _ rfl (getForecastsFromGrib_allOk _ f)]
  · rw [refreshFrom_ok _ cache "1 2 3" _ rfl (getForecastsFromGrib_allOk _ f)]
    rw [List.length_map, getGribBounds_123, createForecastLocations_123_length]
  · rw [getGribBounds_123]
    exact longitudes_123


/-! Query engine: selection characterisation and concrete evaluations. -/

theorem inQueryBounds_wellFormed (b : BoundingBox) (f : ForecastLocation)
    (hlat : b.swCorner.lat ≤ b.neCorner.lat) (hlng : b.swCorner.lng ≤ b.neCorner.lng) :
    inQueryBounds b f =
      decide (b.swCorner.lat ≤ f.lat ∧ f.lat < b.neCorner.lat ∧
              b.swCorner.lng ≤ f.lng ∧ f.lng < b.neCorner.lng) :=
  isPointInside_wellFormed b (GeoPoint.mk f.lat f.lng) hlat hlng

theorem inQueryBounds_inverted (b : BoundingBox) (f : ForecastLocation)
    (hlat : b.neCorner.lat < b.swCorner.lat) (hlng : b.swCorner.lng ≤ b.neCorner.lng) :
    inQueryBounds b f =
      decide (b.neCorner.lat ≤ f.lat ∧ f.lat < b.swCorner.lat ∧
              b.swCorner.lng ≤ f.lng ∧ f.lng < b.neCorner.lng) :=
  isPointInside_inverted b (GeoPoint.mk f.lat f.lng) hlat hlng

theorem inQueryBounds_in_example (items : List ForecastItem) :
    inQueryBounds box6024 (ForecastLocation.mk 60.5 24.5 items) = true := by
  rw [inQueryBounds_wellFormed box6024 _ (by norm_num [box6024]) (by norm_num [box6024]),
    decide_eq_true_eq]
  norm_num [box6024]

theorem inQueryBounds_out_example (items : List ForecastItem) :
    inQueryBounds box6024 (ForecastLocation.mk 62 24.5 items) = false := by
  rw [inQueryBounds_wellFormed box6024 _ (by norm_num [box6024]) (by norm_num [box6024]),
    decide_eq_false_iff_not]
  norm_num [box6024]

/-- C6: for a well-formed query box the locations selected by getForecasts
are exactly the cached ones inside the corner polygon (built in the winding
order sw, (ne.lat, sw.lng), ne, (sw.lat, ne.lng)), and for this polygon the
ray-casting containment is the half-open box
[sw.lat, ne.lat) × [sw.lng, ne.lng); on the box sw = (60, 24), ne = (61, 25)
the cached point (60.5, 24.5) is inside and selected while (62, 24.5) is
outside and not selected. -/
theorem getForecasts_selects_polygon (b : BoundingBox) (st : Option ℤ)
    (cache : List ForecastLocation)
    (hlat : b.swCorner.lat ≤ b.neCorner.lat) (hlng : b.swCorner.lng ≤ b.neCorner.lng) :
    (getForecasts b st cache).1 =
      (cache.filter (fun f =>
        decide (b.swCorner.lat ≤ f.lat ∧ f.lat < b.neCorner.lat ∧
                b.swCorner.lng ≤ f.lng ∧ f.lng < b.neCorner.lng))).map
        (filterItems (jsStartTime st)) ∧
    isPointInside (GeoPoint.mk 60.5 24.5) (queryCorners box6024) = true ∧
    isPointInside (GeoPoint.mk 62 24.5) (queryCorners box6024) = false ∧
    (getForecasts box6024 none
        [ForecastLocation.mk 60.5 24.5 [], ForecastLocation.mk 62 24.5 []]).1 =
      [ForecastLocation.mk 60.5 24.5 []] := by
  refine ⟨?_, ?_, ?_, ?_⟩
  · show (cache.filter (inQueryBounds b)).map (filterItems (jsStartTime st)) = _
    congr 1
    exact List.filter_congr (fun f _ => inQueryBounds_wellFormed b f hlat hlng)
  · rw [isPointInside_wellFormed box6024 _ (by norm_num [box6024]) (by norm_num [box6024]),
      decide_eq_true_eq]
    norm_num [box6024]
  · rw [isPointInside_wellFormed box6024 _ (by norm_num [box6024]) (by norm_num [box6024]),
      decide_eq_false_iff_not]
    norm_num [box6024]
  · show ([ForecastLocation.mk 60.5 24.5 [], ForecastLocation.mk 62 24.5 []].filter
        (inQueryBounds box6024)).map (filterItems (jsStartTime none)) = _
    rw [List.filter_cons, List.filter_cons, List.filter_nil,
      inQueryBounds_in_example [], inQueryBounds_out_example []]
    simp [filterItems, jsStartTime]

/-- Witness for C6 at the example box with an example cache. -/
theorem getForecasts_selects_polygon_witness :
    isPointInside (GeoPoint.mk 60.5 24.5) (queryCorners box6024) = true :=
  (getForecasts_selects_polygon box6024 none []
    (by norm_num [box6024]) (by norm_num [box6024])).2.1

/-- C5 (amended): for each selected location the returned items are exactly
the filter of its pre-call items to times strictly greater than startTime
(never at-or-after); an omitted startTime defaults to the epoch value 0 —
so no item with positive time is excluded, but an item at or before the
epoch IS excluded by the strict filter (see the counterexample); for a
location with items at times 1 < 2 < 3, querying with startTime 2 returns
only the item at time 3. -/
theorem getForecasts_time_filter (b : BoundingBox) (cache : List ForecastLocation) (st : ℤ) :
    (getForecasts b (some st) cache).1 =
      (cache.filter (inQueryBounds b)).map (fun f =>
        ForecastLocation.mk f.lat f.lng
          (f.items.filter (fun item => decide (st < item.time)))) ∧
    (getForecasts b none cache).1 = (getForecasts b (some 0) cache).1 ∧
    (getForecasts box6024 (some 2)
        [ForecastLocation.mk 60.5 24.5
          [ForecastItem.mk 1 "a", ForecastItem.mk 2 "b", ForecastItem.mk 3 "c"]]).1 =
      [ForecastLocation.mk 60.5 24.5 [ForecastItem.mk 3 "c"]] := by
  refine ⟨rfl, rfl, ?_⟩
  show ([ForecastLocation.mk 60.5 24.5
      [ForecastItem.mk 1 "a", ForecastItem.mk 2 "b", ForecastItem.mk 3 "c"]].filter
        (inQueryBounds box6024)).map (filterItems (jsStartTime (some 2))) = _
  rw [List.filter_cons, List.filter_nil, inQueryBounds_in_example]
  simp [filterItems, jsStartTime, List.filter]

/-- C5 counterexample: with startTime omitted the default is the epoch 0 and
the filter is strict, so an item at time 0 is excluded — the returned
location has lost it, while the claim says the default excludes no item. -/
theorem getForecasts_default_excludes_epoch_cex :
    (getForecasts box6024 none [ForecastLocation.mk 60.5 24.5 [ForecastItem.mk 0 "x"]]).1 ≠
      [ForecastLocation.mk 60.5 24.5 [ForecastItem.mk 0 "x"]] := by
  have h : (getForecasts box6024 none
      [ForecastLocation.mk 60.5 24.5 [ForecastItem.mk 0 "x"]]).1 =
      [ForecastLocation.mk 60.5 24.5 []] := by
    show ([ForecastLocation.mk 60.5 24.5 [ForecastItem.mk 0 "x"]].filter
        (inQueryBounds box6024)).map (filterItems (jsStartTime none)) = _
    rw [List.filter_cons, List.filter_nil, inQueryBounds_in_example]
    simp [filterItems, jsStartTime, List.filter]
  rw [h]
  simp

/-- C1 (violated by the source): getForecasts writes through to the
published snapshot — after a query with startTime 1 the cached location has
lost its item at time 1 — and an intervening query with a different
startTime changes what a repeat of an earlier query returns against the
same snapshot. -/
theorem getForecasts_mutates_snapshot :
    (getForecasts box6024 (some 1)
        [ForecastLocation.mk 60.5 24.5 [ForecastItem.mk 1 "a", ForecastItem.mk 2 "b"]]).2 ≠
      [ForecastLocation.mk 60.5 24.5 [ForecastItem.mk 1 "a", ForecastItem.mk 2 "b"]] ∧
    (getForecasts box6024 (some 1)
        ((getForecasts box6024 (some 2)
          [ForecastLocation.mk 60.5 24.5 [ForecastItem.mk 1 "a", ForecastItem.mk 2 "b"]]).2)).1 ≠
      (getForecasts box6024 (some 1)
        [ForecastLocation.mk 60.5 24.5 [ForecastItem.mk 1 "a", ForecastItem.mk 2 "b"]]).1 := by
  have hmut : ∀ t : ℤ, (getForecasts box6024 (some t)
      [ForecastLocation.mk 60.5 24.5 [ForecastItem.mk 1 "a", ForecastItem.mk 2 "b"]]).2 =
      [ForecastLocation.mk 60.5 24.5
        ([ForecastItem.mk 1 "a", ForecastItem.mk 2 "b"].filter
          (fun item => decide (t < item.time)))] := by
    intro t
    show [ForecastLocation.mk 60.5 24.5 [ForecastItem.mk 1 "a", ForecastItem.mk 2 "b"]].map
        (fun forecast => if inQueryBounds box6024 forecast then
          filterItems (jsStartTime (some t)) forecast else forecast) = _
    rw [List.map_cons, List.map_nil, inQueryBounds_in_example]
    simp [filterItems, jsStartTime]
  have hfst : ∀ (t : ℤ) (items : List ForecastItem),
      (getForecasts box6024 (some t) [ForecastLocation.mk 60.5 24.5 items]).1 =
      [ForecastLocation.mk 60.5 24.5 (items.filter (fun item => decide (t < item.time)))] := by
    intro t items
    show ([ForecastLocation.mk 60.5 24.5 items].filter (inQueryBounds box6024)).map
        (filterItems (jsStartTime (some t))) = _
    rw [List.filter_cons, List.filter_nil, inQueryBounds_in_example]
    simp [filterItems, jsStartTime]
  constructor
  · rw [hmut 1]
    simp [List.filter]
  · rw [hmut 2, hfst 1, hfst 1]
    simp [List.filter]

/-- C8 (amended): a query with a malformed box (sw.lat > ne.lat) does not
crash — the containment test is total — but it does not return an empty
sequence in general: the ray-casting test selects exactly the cached
locations with ne.lat ≤ lat < sw.lat inside the longitude range, treating
the box as if its latitudes were swapped, so the result can be non-empty
(the second conjunct exhibits a selected point). -/
theorem getForecasts_inverted_box (b : BoundingBox) (st : Option ℤ)
    (cache : List ForecastLocation)
    (hlat : b.neCorner.lat < b.swCorner.lat) (hlng : b.swCorner.lng ≤ b.neCorner.lng) :
    (getForecasts b st cache).1 =
      (cache.filter (fun f =>
        decide (b.neCorner.lat ≤ f.lat ∧ f.lat < b.swCorner.lat ∧
                b.swCorner.lng ≤ f.lng ∧ f.lng < b.neCorner.lng))).map
        (filterItems (jsStartTime st)) ∧
    (getForecasts (BoundingBox.mk (LatLng.mk 61 24) (LatLng.mk 60 25)) none
        [ForecastLocation.mk 60.5 24.5 []]).1 = [ForecastLocation.mk 60.5 24.5 []] := by
  constructor
  · show (cache.filter (inQueryBounds b)).map (filterItems (jsStartTime st)) = _
    congr 1
    exact List.filter_congr (fun f _ => inQueryBounds_inverted b f hlat hlng)
  · have hin : inQueryBounds (BoundingBox.mk (LatLng.mk 61 24) (LatLng.mk 60 25))
        (ForecastLocation.mk 60.5 24.5 []) = true := by
      rw [inQueryBounds_inverted _ _ (by norm_num) (by norm_num), decide_eq_true_eq]
      norm_num
    show ([ForecastLocation.mk 60.5 24.5 []].filter
        (inQueryBounds (BoundingBox.mk (LatLng.mk 61 24) (LatLng.mk 60 25)))).map
        (filterItems (jsStartTime none)) = _
    rw [List.filter_cons, List.filter_nil, hin]
    simp [filterItems, jsStartTime]

/-- Witness for C8 at the inverted box sw = (61, 24), ne = (60, 25). -/
theorem getForecasts_inverted_box_witness :
    (getForecasts (BoundingBox.mk (LatLng.mk 61 24) (LatLng.mk 60 25)) none
        [ForecastLocation.mk 60.5 24.5 []]).1 = [ForecastLocation.mk 60.5 24.5 []] :=
  (getForecasts_inverted_box (BoundingBox.mk (LatLng.mk 61 24) (LatLng.mk 60 25)) none []
    (by norm_num) (by norm_num)).2

/-- C8 counterexample: for the malformed box sw = (61, 24), ne = (60, 25)
the query over a snapshot holding the point (60.5, 24.5) returns that point
— not the empty sequence the claim requires. -/
theorem getForecasts_malformed_box_cex :
    (getForecasts (BoundingBox.mk (LatLng.mk 61 24) (LatLng.mk 60 25)) none
        [ForecastLocation.mk 60.5 24.5 []]).1 ≠ [] := by
  have hin : inQueryBounds (BoundingBox.mk (LatLng.mk 61 24) (LatLng.mk 60 25))
      (ForecastLocation.mk 60.5 24.5 []) = true := by
    rw [inQueryBounds_inverted _ _ (by norm_num) (by norm_num), decide_eq_true_eq]
    norm_num
  have h : (getForecasts (BoundingBox.mk (LatLng.mk 61 24) (LatLng.mk 60 25)) none
      [ForecastLocation.mk 60.5 24.5 []]).1 = [ForecastLocation.mk 60.5 24.5 []] := by
    show ([ForecastLocation.mk 60.5 24.5 []].filter
        (inQueryBounds (BoundingBox.mk (LatLng.mk 61 24) (LatLng.mk 60 25)))).map
        (filterItems (jsStartTime none)) = _
    rw [List.filter_cons, List.filter_nil, hin]
    simp [filterItems, jsStartTime]
  rw [h]
  simp

/-- C10: the query preserves snapshot order — the (lat, lng) sequence of the
returned locations is an order-preserving selection (a sublist) of the
(lat, lng) sequence of the cached snapshot, for every box and start time. -/
theorem getForecasts_preserves_order (b : BoundingBox) (st : Option ℤ)
    (cache : List ForecastLocation) :
    List.Sublist ((getForecasts b st cache).1.map (fun f => (f.lat, f.lng)))
      (cache.map (fun f => (f.lat, f.lng))) := by
  show List.Sublist (((cache.filter (inQueryBounds b)).map
      (filterItems (jsStartTime st))).map (fun f => (f.lat, f.lng))) _
  rw [List.map_map]
  exact List.Sublist.map (fun f => (f.lat, f.lng)) (List.filter_sublist cache)

/-! Fan-out/fan-in of Promise.map and the bounded worker pool. -/

theorem fanIn_foldl_length {α β : Type} (f : α → β) (xs : List α) :
    ∀ (order : List ℕ) (acc : List (Option β)),
      (order.foldl (fun res i =>
        match xs[i]? with
        | some x => res.set i (some (f x))
        | none => res) acc).length = acc.length := by
  intro order
  induction order with
  | nil => intro acc; rfl
  | cons a rest ih =>
    intro acc
    rw [List.foldl_cons, ih]
    cases h : xs[a]? <;> simp [h]

theorem fanIn_foldl_getElem {α β : Type} (f : α → β) (xs : List α) :
    ∀ (order : List ℕ) (acc : List (Option β)), acc.length = xs.length →
      ∀ j, j < xs.length →
        (order.foldl (fun res i =>
          match xs[i]? with
          | some x => res.set i (some (f x))
          | none => res) acc)[j]? =
          if j ∈ order then (xs[j]?).map (fun x => some (f x)) else acc[j]? := by
  intro order
  induction order with
  | nil =>
    intro acc hlen j hj
    simp
  | cons a rest ih =>
    intro acc hlen j hj
    rw [List.foldl_cons]
    have hlen2 : (match xs[a]? with
        | some x => acc.set a (some (f x))
        | none => acc).length = xs.length := by
      cases h : xs[a]? <;> simp [hlen]
    rw [ih _ hlen2 j hj]
    by_cases hjr : j ∈ rest
    · simp [hjr, List.mem_cons]
    · by_cases hja : j = a
      · subst hja
        cases hx : xs[j]? with
        | none =>
          exact absurd (List.getElem?_eq_none_iff.mp hx) (by omega)
        | some x =>
          simp only [hx, hjr, if_false, List.mem_cons, eq_self_iff_true, true_or, if_true]
          rw [List.getElem?_set]
          simp [hlen, hj]
      · have hcond : ¬ j ∈ a :: rest := by
          simp [List.mem_cons, hja, hjr]
        simp only [hcond, if_false, hjr]
        cases h : xs[a]? with
        | none => rfl
        | some x =>
          rw [List.getElem?_set, if_neg (fun hh => hja hh.symm)]

theorem promiseMapFanIn_eq_map {α β : Type} (f : α → β) (xs : List α)
    (completionOrder : List ℕ)
    (hcover : ∀ i, i < xs.length → i ∈ completionOrder) :
    promiseMapFanIn f xs completionOrder = xs.map (fun x => some (f x)) := by
  apply List.ext_getElem?
  intro j
  by_cases hj : j < xs.length
  · show (completionOrder.foldl (fun res i =>
        match xs[i]? with
        | some x => res.set i (some (f x))
        | none => res) (List.replicate xs.length none))[j]? = _
    rw [fanIn_foldl_getElem f xs completionOrder _ (List.length_replicate _ _) j hj,
      if_pos (hcover j hj), List.getElem?_map]
  · have h1 : (promiseMapFanIn f xs completionOrder).length ≤ j := by
      show (completionOrder.foldl (fun res i =>
          match xs[i]? with
          | some x => res.set i (some (f x))
          | none => res) (List.replicate xs.length none)).length ≤ j
      rw [fanIn_foldl_length, List.length_replicate]
      omega
    rw [List.getElem?_eq_none h1, List.getElem?_eq_none (by simp; omega)]

/-- C7: getForecastsFromGrib is an order-preserving fan-out/fan-in: whatever
completion order the bounded scheduler produces (any order that completes
every input index), the fan-in array is the input list mapped in input
order, so slot i carries the lat/lng of input location i together with the
items extracted for (gribFile, input[i].lat, input[i].lng); and the settled
promise is Except.ok of exactly that list — output order matches input
order, not completion order. -/
theorem getForecastsFromGrib_order (locations : List GridPoint)
    (gf : ℚ → ℚ → List ForecastItem) (completionOrder : List ℕ)
    (hcover : ∀ i, i < locations.length → i ∈ completionOrder) :
    promiseMapFanIn (fun loc => ForecastLocation.mk loc.lat loc.lng (gf loc.lat loc.lng))
        locations completionOrder =
      locations.map (fun loc =>
        some (ForecastLocation.mk loc.lat loc.lng (gf loc.lat loc.lng))) ∧
    getForecastsFromGrib locations (fun la lo => Except.ok (gf la lo)) =
      Except.ok (locations.map (fun loc =>
        ForecastLocation.mk loc.lat loc.lng (gf loc.lat loc.lng))) :=
  ⟨promiseMapFanIn_eq_map _ _ _ hcover, getForecastsFromGrib_allOk _ _⟩

/-- Witness for C7 on two locations with the completion order reversed. -/
theorem getForecastsFromGrib_order_witness :
    promiseMapFanIn (fun loc : GridPoint => ForecastLocation.mk loc.lat loc.lng [])
        [GridPoint.mk 1 2, GridPoint.mk 3 4] [1, 0] =
      [some (ForecastLocation.mk 1 2 []), some (ForecastLocation.mk 3 4 [])] ∧
    getForecastsFromGrib [GridPoint.mk 1 2, GridPoint.mk 3 4]
        (fun _ _ => Except.ok []) =
      Except.ok [ForecastLocation.mk 1 2 [], ForecastLocation.mk 3 4 []] :=
  getForecastsFromGrib_order [GridPoint.mk 1 2, GridPoint.mk 3 4] (fun _ _ => []) [1, 0]
    (by decide)

/-- C9: the bounded worker pool that getForecastsFromGrib runs on —
Promise.map with the concurrency option, passed CPU_COUNT, the processor
count of the host, modelled as the parameter c — never exceeds its bound:
in every reachable scheduler state at most c external per-point calls are
in flight (with the sanity bounds finished ≤ launched ≤ n). -/
theorem promiseMap_concurrency_bound (c n : ℕ) (s : PoolState)
    (h : PoolReachable c n s) :
    s.inFlight ≤ c ∧ s.finished ≤ s.launched ∧ s.launched ≤ n := by
  induction h with
  | init => simp [PoolState.inFlight]
  | step s t hs hstep ih =>
    cases hstep with
    | start hn hc =>
      simp only [PoolState.inFlight] at *
      omega
    | complete hlt =>
      simp only [PoolState.inFlight] at *
      omega

/-- Witness for C9: after launching one of three tasks under bound two, one
call is in flight, within the bound. -/
theorem promiseMap_concurrency_bound_witness :
    (PoolState.mk 1 0).inFlight ≤ 2 ∧
    (PoolState.mk 1 0).finished ≤ (PoolState.mk 1 0).launched ∧
    (PoolState.mk 1 0).launched ≤ 3 :=
  promiseMap_concurrency_bound 2 3 (PoolState.mk 1 0)
    (PoolReachable.step (PoolState.mk 0 0) (PoolState.mk 1 0) PoolReachable.init
      (PoolStep.start (PoolState.mk 0 0) (by decide) (by decide)))
